import Mathlib

/-!
Shallow embedding of the display-buffer color-management module
(`source/blender/imbuf/intern/colormanagement.c`) and proofs of the
claims of the specification about it.

Modelling conventions:
* C `float` values that the module only ever stores and compares for exact
  equality (exposure, gamma, dither) are modelled as `ℚ` (`Rat`), which has
  the same exact-equality behaviour on the values the code manipulates
  (NaN payloads are outside the model).
* Pointers are modelled by optional addresses (`Option Nat`); the pointed-to
  `changed_timestamp` field of a `CurveMapping` is read through an explicit
  heap function `Nat → Int`.
* The generic block cache (`MovieCache`, which lives outside the source
  embedded by this file) is modelled from the spec as a key → entry association list:
  `get` returns the entry stored under an equal key, `put` stores an entry
  under a key so that a subsequent `get` finds it.
* External color math (OCIO transforms, per-pixel conversion helpers) only
  determines the *values* written into buffers, never which bytes are
  written; it is abstracted as value-producing function parameters.
-/

/-- Cache key: (view index, display index), both 1-based catalog indices.
Mirrors `ColormanageCacheKey`; key equality is `colormanage_hashcmp`. -/
structure ColormanageCacheKey where
  view : Nat
  display : Nat
deriving DecidableEq, Repr

/-- Converted view settings, mirrors `ColormanageCacheViewSettings`:
indices instead of names, plus the invalidation parameters. -/
structure ColormanageCacheViewSettings where
  flag : Int
  look : Nat
  view : Nat
  exposure : ℚ
  gamma : ℚ
  dither : ℚ
  curve_mapping : Option Nat
deriving DecidableEq, Repr

/-- Converted display settings, mirrors `ColormanageCacheDisplaySettings`. -/
structure ColormanageCacheDisplaySettings where
  display : Nat
deriving DecidableEq, Repr

/-- Parameter snapshot stored with a cached buffer, mirrors
`ColormanageCacheData`. -/
structure ColormanageCacheData where
  flag : Int
  look : Nat
  exposure : ℚ
  gamma : ℚ
  dither : ℚ
  curve_mapping : Option Nat
  curve_mapping_timestamp : Int
deriving DecidableEq, Repr

/-- A cache-entry image buffer: the display-buffer bytes (`rect`) plus the
attached `ColormanageCacheData` snapshot. -/
structure CacheImBuf where
  rect : List Nat
  data : ColormanageCacheData
deriving DecidableEq, Repr

/-- The color-management-relevant state of an `ImBuf`:
channel count, dither amount, the per-display `display_buffer_flags` bit
field (NULL-able), the per-buffer movie cache (NULL-able), and the
`IB_DISPLAY_BUFFER_INVALID` user flag. -/
structure ImBufModel where
  x : Nat
  channels : Nat
  dither : ℚ
  display_buffer_flags : Option (List Nat)
  moviecache : Option (List (ColormanageCacheKey × CacheImBuf))
  display_buffer_invalid : Bool
deriving DecidableEq, Repr

/-- Modelled from the spec: the block cache (`IMB_moviecache_get`) is a
generic key→object store; `get` returns the object stored under an equal
key (`colormanage_hashcmp` equality), or NULL when none is stored. -/
def IMB_moviecache_get (cache : List (ColormanageCacheKey × CacheImBuf))
    (key : ColormanageCacheKey) : Option CacheImBuf :=
  (cache.find? (fun e => decide (e.1 = key))).map (fun e => e.2)

/-- Modelled from the spec: the block cache (`IMB_moviecache_put`) stores an
object under a key, so that a subsequent `get` with an equal key returns it
(superseding any previously stored object for that key). -/
def IMB_moviecache_put (cache : List (ColormanageCacheKey × CacheImBuf))
    (key : ColormanageCacheKey) (entry : CacheImBuf) :
    List (ColormanageCacheKey × CacheImBuf) :=
  (key, entry) :: cache

/-- Mirrors `colormanage_settings_to_key`. -/
def colormanage_settings_to_key (view_settings : ColormanageCacheViewSettings)
    (display_settings : ColormanageCacheDisplaySettings) : ColormanageCacheKey :=
  { view := view_settings.view, display := display_settings.display }

/-- Reads `curve_mapping->changed_timestamp` through the heap, 0 for NULL;
mirrors the `curve_mapping ? curve_mapping->changed_timestamp : 0`
expressions in `colormanage_cache_get` / `colormanage_cache_put`. -/
def curve_mapping_timestamp_of (heap : Nat → Int) (curve_mapping : Option Nat) : Int :=
  match curve_mapping with
  | some p => heap p
  | none => 0

/-- Mirrors `colormanage_cache_get_ibuf`: NULL moviecache means no color
management was applied to this buffer before, otherwise query the block
cache. -/
def colormanage_cache_get_ibuf (ibuf : ImBufModel) (key : ColormanageCacheKey) :
    Option CacheImBuf :=
  match ibuf.moviecache with
  | none => none
  | some moviecache => IMB_moviecache_get moviecache key

/-- Mirrors `colormanage_cache_get`: fast-reject on the per-buffer
"ever computed" bit, then block-cache lookup, then full parameter-snapshot
comparison; any mismatch releases the entry and returns NULL (`none`). -/
def colormanage_cache_get (ibuf : ImBufModel)
    (view_settings : ColormanageCacheViewSettings)
    (display_settings : ColormanageCacheDisplaySettings)
    (heap : Nat → Int) : Option (List Nat) :=
  let view_flag : Nat := 1 <<< (view_settings.view - 1)
  let curve_mapping := view_settings.curve_mapping
  let curve_mapping_timestamp := curve_mapping_timestamp_of heap curve_mapping
  let key := colormanage_settings_to_key view_settings display_settings
  if ((ibuf.display_buffer_flags.getD []).getD (display_settings.display - 1) 0) &&&
      view_flag = 0 then
    none
  else
    match colormanage_cache_get_ibuf ibuf key with
    | none => none
    | some cache_ibuf =>
      let cache_data := cache_ibuf.data
      if cache_data.look ≠ view_settings.look ∨
          cache_data.exposure ≠ view_settings.exposure ∨
          cache_data.gamma ≠ view_settings.gamma ∨
          cache_data.dither ≠ view_settings.dither ∨
          cache_data.flag ≠ view_settings.flag ∨
          cache_data.curve_mapping ≠ curve_mapping ∨
          cache_data.curve_mapping_timestamp ≠ curve_mapping_timestamp then
        none
      else
        some cache_ibuf.rect

/-- The snapshot stored by `colormanage_cache_put` (field-by-field copy of
the requesting settings plus the curve-mapping timestamp). -/
def colormanage_cachedata_of (view_settings : ColormanageCacheViewSettings)
    (heap : Nat → Int) : ColormanageCacheData :=
  { flag := view_settings.flag
    look := view_settings.look
    exposure := view_settings.exposure
    gamma := view_settings.gamma
    dither := view_settings.dither
    curve_mapping := view_settings.curve_mapping
    curve_mapping_timestamp := curve_mapping_timestamp_of heap view_settings.curve_mapping }

/-- Mirrors `colormanage_cache_put`: ensure the moviecache exists, set the
"ever computed" bit for (display, view), and store the display buffer
together with the parameter snapshot under the cache key. -/
def colormanage_cache_put (ibuf : ImBufModel)
    (view_settings : ColormanageCacheViewSettings)
    (display_settings : ColormanageCacheDisplaySettings)
    (display_buffer : List Nat) (heap : Nat → Int) : ImBufModel :=
  let view_flag : Nat := 1 <<< (view_settings.view - 1)
  let moviecache := ibuf.moviecache.getD []
  let key := colormanage_settings_to_key view_settings display_settings
  let flags := match ibuf.display_buffer_flags with
    | some f =>
        some (f.set (display_settings.display - 1)
          ((f.getD (display_settings.display - 1) 0) ||| view_flag))
    | none => none
  let cache_ibuf : CacheImBuf :=
    { rect := display_buffer, data := colormanage_cachedata_of view_settings heap }
  { ibuf with
      display_buffer_flags := flags
      moviecache := some (IMB_moviecache_put moviecache key cache_ibuf) }

/-- Zeroes the first `n` elements of a list, mirroring
`memset(ibuf->display_buffer_flags, 0, global_tot_display * sizeof(uint))`. -/
def memset_zero : Nat → List Nat → List Nat
  | 0, l => l
  | _, [] => []
  | n + 1, _ :: t => 0 :: memset_zero n t

/-- ORs `bits` into element `i` of a flags array, mirroring
`flags[display_index] |= view_flag`. -/
def flag_or (l : List Nat) (i : Nat) (bits : Nat) : List Nat :=
  l.set i ((l.getD i 0) ||| bits)

/-- The list of display-buffer byte indices written by
`partial_buffer_update_rect` (modelled here as `region_buffer_update_rect`),
computed exactly as the source computes its store addresses:
* transform active, dither == 0: per pixel (x, y) of the rect, the 4 bytes
  at `(y * display_stride + x) * 4`;
* transform active, dither != 0: the per-pixel loop writes only an
  intermediate float buffer; the final byte conversion starts at
  `(ymin * display_stride + xmin) * channels` and emits the 4-byte pixels of
  a `width × height` grid with row stride `display_stride`
  (destination footprint of `IMB_buffer_byte_from_float`, whose output is
  always a 4-byte-per-pixel rect with the given row stride — modelled from
  the spec, this helper lives outside this source file);
* no transform, dither != 0: same final conversion with `channels`
  forced to 4 by the source;
* no transform, dither == 0: per row `i`, the `4 * width` bytes starting at
  `(display_stride * i + xmin) * 4` (the memcpy fast path). -/
def region_buffer_update_rect_indices (channels : Nat) (dither : ℚ)
    (has_processor : Bool) (display_stride : Nat)
    (xmin ymin xmax ymax : Nat) : List Nat :=
  let width := xmax - xmin
  let height := ymax - ymin
  if has_processor then
    if dither ≠ 0 then
      let base := (ymin * display_stride + xmin) * channels
      (List.range height).flatMap (fun i =>
        (List.range width).flatMap (fun j =>
          (List.range 4).map (fun c => base + (i * display_stride + j) * 4 + c)))
    else
      (List.range height).flatMap (fun dy =>
        (List.range width).flatMap (fun dx =>
          (List.range 4).map (fun c =>
            ((ymin + dy) * display_stride + (xmin + dx)) * 4 + c)))
  else
    if dither ≠ 0 then
      let base := (ymin * display_stride + xmin) * 4
      (List.range height).flatMap (fun i =>
        (List.range width).flatMap (fun j =>
          (List.range 4).map (fun c => base + (i * display_stride + j) * 4 + c)))
    else
      (List.range height).flatMap (fun i =>
        (List.range (4 * width)).map (fun k =>
          ((ymin + i) * display_stride + xmin) * 4 + k))

/-- Mirrors `partial_buffer_update_rect` as a transformation of the display
buffer: every store the source performs lands at an index of
`region_buffer_update_rect_indices`, and the byte value written there is
produced by external color math (OCIO transform / conversion helpers),
abstracted as `vals`. -/
def region_buffer_update_rect (channels : Nat) (dither : ℚ) (has_processor : Bool)
    (display_buffer : List Nat) (display_stride : Nat) (vals : Nat → Nat)
    (xmin ymin xmax ymax : Nat) : List Nat :=
  (region_buffer_update_rect_indices channels dither has_processor display_stride
      xmin ymin xmax ymax).foldl
    (fun buf i => buf.set i (vals i)) display_buffer

/-- Writes `rect` through the buffer pointer of the entry that a block-cache
lookup of `key` returns (the first entry stored under an equal key); models
`partial_buffer_update_rect` writing in place through the pointer obtained
from `colormanage_cache_get`. -/
def moviecache_write_rect :
    List (ColormanageCacheKey × CacheImBuf) → ColormanageCacheKey → List Nat →
    List (ColormanageCacheKey × CacheImBuf)
  | [], _, _ => []
  | e :: rest, key, rect =>
    if e.1 = key then (e.1, { e.2 with rect := rect }) :: rest
    else e :: moviecache_write_rect rest key rect

/-- Result of a partial display-buffer update: the new state of the image
buffer
and whether the region writer actually ran (a cache hit was found). -/
structure RegionUpdateResult where
  ibuf : ImBufModel
  recomputed : Bool
deriving Repr

/-- Mirrors `imb_partial_display_buffer_update_ex` (named `region` here):
if `display_buffer_flags` exists, look up the active display buffer in the
cache (unless `IB_DISPLAY_BUFFER_INVALID` is set), zero out every
(display, view) computed bit and set only the bit of the requested pair;
then,
only when the lookup returned a buffer, run the region writer over it in
place. `view_settings` / `display_settings` are the converted cache
settings (the output of `colormanage_view_settings_to_cache` /
`colormanage_display_settings_to_cache`); `has_processor` is the negation
of the `skip_transform` flag in the source (a
byte-buffer-already-in-display-space
check resolved through the external catalog); `vals` abstracts the external
per-pixel color math. -/
def imb_region_display_buffer_update_ex (ibuf : ImBufModel)
    (view_settings : ColormanageCacheViewSettings)
    (display_settings : ColormanageCacheDisplaySettings)
    (tot_display : Nat) (heap : Nat → Int) (vals : Nat → Nat)
    (has_processor : Bool) (xmin ymin xmax ymax : Nat)
    (do_threads : Bool) : RegionUpdateResult :=
  match ibuf.display_buffer_flags with
  | none => { ibuf := ibuf, recomputed := false }
  | some flags =>
    let view_flag : Nat := 1 <<< (view_settings.view - 1)
    let display_index := display_settings.display - 1
    let display_buffer :=
      if ibuf.display_buffer_invalid then none
      else colormanage_cache_get ibuf view_settings display_settings heap
    let buffer_width := ibuf.x
    let flags2 := flag_or (memset_zero tot_display flags) display_index view_flag
    let ibuf2 := { ibuf with display_buffer_flags := some flags2 }
    match display_buffer with
    | none => { ibuf := ibuf2, recomputed := false }
    | some db =>
      let db2 :=
        if do_threads then
          (List.range (ymax - ymin)).foldl
            (fun buf scanline =>
              region_buffer_update_rect ibuf.channels ibuf.dither has_processor
                buf buffer_width vals xmin (ymin + scanline) xmax
                (ymin + scanline + 1))
            db
        else
          region_buffer_update_rect ibuf.channels ibuf.dither has_processor db
            buffer_width vals xmin ymin xmax ymax
      let key := colormanage_settings_to_key view_settings display_settings
      let moviecache2 :=
        match ibuf2.moviecache with
        | none => none
        | some mc => some (moviecache_write_rect mc key db2)
      { ibuf := { ibuf2 with moviecache := moviecache2 }, recomputed := true }

/-- Mirrors `IMB_partial_display_buffer_update`: the single-threaded entry
point. -/
def IMB_region_display_buffer_update (ibuf : ImBufModel)
    (view_settings : ColormanageCacheViewSettings)
    (display_settings : ColormanageCacheDisplaySettings)
    (tot_display : Nat) (heap : Nat → Int) (vals : Nat → Nat)
    (has_processor : Bool) (xmin ymin xmax ymax : Nat) : RegionUpdateResult :=
  imb_region_display_buffer_update_ex ibuf view_settings display_settings
    tot_display heap vals has_processor xmin ymin xmax ymax false

/-- The C `size_t` value of a signed integer: reduction modulo `2 ^ 64`. -/
def size_t_of_int (i : Int) : Nat :=
  (i % (2 : Int) ^ 64).toNat

/-- The `do_threads` choice computed by
`IMB_partial_display_buffer_update_threaded`:
`(((size_t)width) * height >= 64 * 64)` with `width = xmax - xmin` and
`height = ymax - ymin`, both operands converted to `size_t` and the product
taken in `size_t` arithmetic. -/
def IMB_region_display_buffer_update_threaded_choice (xmin ymin xmax ymax : Int) : Bool :=
  let width := xmax - xmin
  let height := ymax - ymin
  decide (64 * 64 ≤ (size_t_of_int width * size_t_of_int height) % 2 ^ 64)

/-- Mirrors `IMB_partial_display_buffer_update_threaded`: chooses threading
by region area, then runs the update. -/
def IMB_region_display_buffer_update_threaded (ibuf : ImBufModel)
    (view_settings : ColormanageCacheViewSettings)
    (display_settings : ColormanageCacheDisplaySettings)
    (tot_display : Nat) (heap : Nat → Int) (vals : Nat → Nat)
    (has_processor : Bool) (xmin ymin xmax ymax : Nat) : RegionUpdateResult :=
  let do_threads := IMB_region_display_buffer_update_threaded_choice xmin ymin xmax ymax
  imb_region_display_buffer_update_ex ibuf view_settings display_settings
    tot_display heap vals has_processor xmin ymin xmax ymax do_threads

/-- Mirrors `colormanagement_transform_ex`: an empty source color-space name
returns immediately; identical source and destination names return
immediately; otherwise the compiled space-to-space processor (external
engine work, abstracted as `apply_processor`) is applied to the buffer.
`IMB_colormanagement_transform`, `IMB_colormanagement_transform_threaded`,
`IMB_colormanagement_transform_byte` and its threaded variant all forward
here. -/
def colormanagement_transform_ex {α : Type} (apply_processor : α → α) (buffer : α)
    (from_colorspace to_colorspace : String) : α :=
  if from_colorspace = "" then buffer
  else if from_colorspace = to_colorspace then buffer
  else apply_processor buffer

/-- Mirrors `IMB_colormanagement_transform` (float buffer, non-threaded). -/
def IMB_colormanagement_transform {α : Type} (apply_processor : α → α) (buffer : α)
    (from_colorspace to_colorspace : String) : α :=
  colormanagement_transform_ex apply_processor buffer from_colorspace to_colorspace

/-- Mirrors `IMB_colormanagement_transform_v4`: same early-outs as
`colormanagement_transform_ex`, applied to a single 4-float pixel. -/
def IMB_colormanagement_transform_v4 {α : Type} (apply_processor_v4 : α → α)
    (pixel : α) (from_colorspace to_colorspace : String) : α :=
  if from_colorspace = "" then pixel
  else if from_colorspace = to_colorspace then pixel
  else apply_processor_v4 pixel

/-- Mirrors `ColorManagedLook`: 1-based index, name, UI name, process space,
optional view restriction (empty string = global), and the noop flag. -/
structure ColorManagedLook where
  index : Nat
  name : String
  ui_name : String
  process_space : String
  view : String
  is_noop : Bool
deriving DecidableEq, Repr

/-- Mirrors `colormanage_look_get_named`: linear search of the global look
list by exact name, NULL (`none`) when no look matches. -/
def colormanage_look_get_named (looks : List ColorManagedLook) (name : String) :
    Option ColorManagedLook :=
  looks.find? (fun look => decide (look.name = name))

/-- Mirrors `colormanage_compatible_look`: noop looks are always compatible;
otherwise the look must be global (empty view restriction) or restricted to
the current view name (which may be NULL). -/
def colormanage_compatible_look (look : ColorManagedLook)
    (view_name : Option String) : Bool :=
  if look.is_noop then true
  else
    decide (look.view = "") ||
      (match view_name with
        | some v => decide (look.view = v)
        | none => false)

/-- Mirrors `colormanage_use_look`. The source reads
`look_descr->is_noop` without checking the result of
`colormanage_look_get_named` against NULL; the `none` branch of this model
marks exactly that NULL-pointer dereference (undefined behaviour in C). -/
def colormanage_use_look (looks : List ColorManagedLook) (look : String)
    (view_name : Option String) : Option Bool :=
  match colormanage_look_get_named looks look with
  | none => none
  | some look_descr =>
      some ((!look_descr.is_noop) && colormanage_compatible_look look_descr view_name)

/-- Mirrors `ColorManagedDisplay` as far as name lookups need it:
1-based index and name. -/
structure ColorManagedDisplay where
  index : Nat
  name : String
deriving DecidableEq, Repr

/-- Mirrors `colormanage_display_get_named`: linear search by exact name,
NULL (`none`) on a miss. -/
def colormanage_display_get_named (displays : List ColorManagedDisplay)
    (name : String) : Option ColorManagedDisplay :=
  displays.find? (fun display => decide (display.name = name))

/-- Mirrors `IMB_colormanagement_display_get_named_index`: the 1-based
index of the display, or the 0 sentinel when the name is unknown. -/
def IMB_colormanagement_display_get_named_index (displays : List ColorManagedDisplay)
    (name : String) : Nat :=
  match colormanage_display_get_named displays name with
  | some display => display.index
  | none => 0

/-- An engine configuration as the loader consumes it: the ordered list of
displays, each with its ordered list of view names. -/
structure OCIOConfig where
  displays : List (String × List String)
deriving Repr

/-- The catalog state the loader populates: display names, distinct view
names, and the `global_tot_display` / `global_tot_view` counters. -/
structure GlobalCatalog where
  displays : List String
  views : List String
  tot_display : Nat
  tot_view : Nat
deriving DecidableEq, Repr

/-- Mirrors the display/view part of `colormanage_load_config`: every config
display is added (`colormanage_display_add`); each of its views is added
only if no view of that name was loaded yet (`colormanage_view_get_named` /
`colormanage_view_add`, which increments `global_tot_view`); finally
`global_tot_display` is set to the display count of the config. -/
def colormanage_load_config (g : GlobalCatalog) (config : OCIOConfig) : GlobalCatalog :=
  let g1 := config.displays.foldl
    (fun acc d =>
      let acc1 := { acc with displays := acc.displays ++ [d.1] }
      d.2.foldl
        (fun a viewname =>
          if a.views.contains viewname then a
          else { a with views := a.views ++ [viewname], tot_view := a.tot_view + 1 })
        acc1)
    g
  { g1 with tot_display := config.displays.length }

/-- Mirrors `colormanage_free_config`: all lists freed, all counters reset. -/
def colormanage_free_config (_ : GlobalCatalog) : GlobalCatalog :=
  { displays := [], views := [], tot_display := 0, tot_view := 0 }

/-- The catalog state before any configuration is loaded. -/
def emptyCatalog : GlobalCatalog :=
  { displays := [], views := [], tot_display := 0, tot_view := 0 }

/-- Modelled from the spec: `OCIO_configCreateFallback` (external transform
engine) builds the built-in fallback configuration, which provides a
display with a view. -/
def OCIO_configCreateFallback : OCIOConfig :=
  { displays := [("sRGB", ["Standard"])] }

/-- Mirrors the catalog part of `colormanagement_init`: load the resolved
configuration; if the result has no displays or no views, free the loaded
catalog and reload from the built-in fallback configuration. (Locating or
creating the initial `config` — environment variable, data file, or
fallback — is file-system work outside this model; the model receives the
configuration that was loaded first.) -/
def colormanagement_init (config : OCIOConfig) : GlobalCatalog :=
  let g := colormanage_load_config emptyCatalog config
  if g.tot_display = 0 ∨ g.tot_view = 0 then
    colormanage_load_config (colormanage_free_config g) OCIO_configCreateFallback
  else g

/-- FLT_EPSILON: the IEEE-754 single-precision machine epsilon, 2⁻²³. -/
noncomputable def FLT_EPSILON : ℝ := 1 / 2 ^ 23

/-- The `scale` argument `create_display_buffer_processor` passes to
`OCIO_createDisplayProcessor`:
`(exposure == 0.0f) ? 1.0f : powf(2.0f, exposure)`. -/
noncomputable def create_display_buffer_processor_scale (exposure : ℝ) : ℝ :=
  if exposure = 0 then 1 else Real.rpow 2 exposure

/-- The `exponent` argument `create_display_buffer_processor` passes to
`OCIO_createDisplayProcessor`:
`(gamma == 1.0f) ? 1.0f : 1.0f / max_ff(FLT_EPSILON, gamma)`. -/
noncomputable def create_display_buffer_processor_exponent (gamma : ℝ) : ℝ :=
  if gamma = 1 then 1 else 1 / max FLT_EPSILON gamma

/-- A heap assigning timestamp 0 to every curve mapping (used to instantiate
theorems at concrete states). -/
def heap0 : Nat → Int := fun _ => 0

/-- A constant external-pixel-math abstraction writing byte value 7. -/
def vals7 : Nat → Nat := fun _ => 7

/-- Concrete converted view settings: view 1, look 1, neutral parameters. -/
def vs1 : ColormanageCacheViewSettings :=
  { flag := 0, look := 1, view := 1, exposure := 0, gamma := 1, dither := 0,
    curve_mapping := none }

/-- Concrete converted display settings: display 1. -/
def ds1 : ColormanageCacheDisplaySettings := { display := 1 }

/-- Concrete image buffer: one display, nothing computed yet. -/
def ibuf1 : ImBufModel :=
  { x := 4, channels := 4, dither := 0, display_buffer_flags := some [0],
    moviecache := none, display_buffer_invalid := false }

/-- Concrete image buffer whose only computed display buffer is
(display 1, view 2) — the bit value 2 — with an empty movie cache. -/
def ibuf2 : ImBufModel :=
  { x := 4, channels := 4, dither := 0, display_buffer_flags := some [2],
    moviecache := none, display_buffer_invalid := false }

/-- Concrete image buffer with two displays and several computed bits. -/
def ibuf3 : ImBufModel :=
  { x := 4, channels := 4, dither := 0, display_buffer_flags := some [5, 3],
    moviecache := none, display_buffer_invalid := false }

/-- The synthetic "None" look that `colormanage_load_config` always adds
(`colormanage_look_add("None", "", true)`). -/
def look_none : ColorManagedLook :=
  { index := 1, name := "None", ui_name := "None", process_space := "",
    view := "", is_noop := true }

/-- A catalog look list holding only the synthetic "None" look. -/
def looks1 : List ColorManagedLook := [look_none]

/-- A one-entry moviecache holding buffer [3] under key (view 1, display 1)
with the `vs1` snapshot. -/
def mc1 : List (ColormanageCacheKey × CacheImBuf) :=
  [({ view := 1, display := 1 },
    { rect := [3], data := colormanage_cachedata_of vs1 heap0 })]

/-- A configuration with no displays at all. -/
def emptyConfig : OCIOConfig := { displays := [] }

/-- A 2-pixel-wide, 1-row display buffer (8 bytes), all zero. -/
def display8 : List Nat := [0, 0, 0, 0, 0, 0, 0, 0]

theorem length_memset_zero (n : Nat) (l : List Nat) :
    (memset_zero n l).length = l.length := by
  induction l generalizing n with
  | nil => cases n <;> rfl
  | cons a t ih =>
    cases n with
    | zero => rfl
    | succ m => simpa [memset_zero] using ih m

theorem getD_memset_zero (n : Nat) (l : List Nat) (i : Nat) (hi : i < n)
    (hl : i < l.length) : (memset_zero n l).getD i 0 = 0 := by
  induction l generalizing n i with
  | nil => simp at hl
  | cons a t ih =>
    cases n with
    | zero => omega
    | succ m =>
      cases i with
      | zero => rfl
      | succ j =>
        simpa [memset_zero] using ih m j (by omega) (by simpa using hl)

theorem getD_set_self (l : List Nat) (i : Nat) (a : Nat) (h : i < l.length) :
    (l.set i a).getD i 0 = a := by
  simp [List.getD_eq_getElem?_getD, List.getElem?_set_self, h]

theorem getD_set_ne (l : List Nat) (i j : Nat) (a : Nat) (h : i ≠ j) :
    (l.set i a).getD j 0 = l.getD j 0 := by
  simp [List.getD_eq_getElem?_getD, List.getElem?_set_ne h]

theorem and_shl_ne_zero_iff_testBit (x v : Nat) :
    (x &&& (1 <<< v) ≠ 0) ↔ x.testBit v = true := by
  rw [Nat.shiftLeft_eq, one_mul, Nat.and_two_pow]
  cases h : x.testBit v <;> simp [h]

/-- C1: a display-buffer cache lookup that finds an entry under the
(view, display) key but whose stored parameter snapshot (look, exposure,
gamma, dither, flags, curve-mapping pointer, curve-mapping timestamp)
differs in any field from the requesting settings returns a miss (`none`),
never the stale buffer; in particular, a `get` right after a `put` with
only the exposure changed never returns the previously cached bytes. -/
theorem colormanage_cache_get_rejects_stale_snapshot :
    (∀ (ibuf : ImBufModel) (vs : ColormanageCacheViewSettings)
        (ds : ColormanageCacheDisplaySettings) (heap : Nat → Int) (entry : CacheImBuf),
      colormanage_cache_get_ibuf ibuf (colormanage_settings_to_key vs ds) = some entry →
      (entry.data.look ≠ vs.look ∨ entry.data.exposure ≠ vs.exposure ∨
        entry.data.gamma ≠ vs.gamma ∨ entry.data.dither ≠ vs.dither ∨
        entry.data.flag ≠ vs.flag ∨ entry.data.curve_mapping ≠ vs.curve_mapping ∨
        entry.data.curve_mapping_timestamp ≠
          curve_mapping_timestamp_of heap vs.curve_mapping) →
      colormanage_cache_get ibuf vs ds heap = none) ∧
    (∀ (ibuf : ImBufModel) (vs : ColormanageCacheViewSettings)
        (ds : ColormanageCacheDisplaySettings) (heap : Nat → Int)
        (display_buffer : List Nat) (exposure2 : ℚ),
      exposure2 ≠ vs.exposure →
      colormanage_cache_get (colormanage_cache_put ibuf vs ds display_buffer heap)
        { vs with exposure := exposure2 } ds heap = none) := by
  constructor
  · intro ibuf vs ds heap entry hfound hmis
    simp only [colormanage_cache_get]
    split
    · rfl
    · rw [hfound]
      simp only []
      rw [if_pos hmis]
  · intro ibuf vs ds heap display_buffer exposure2 hne
    simp only [colormanage_cache_get]
    split
    · rfl
    · have hfound : colormanage_cache_get_ibuf
          (colormanage_cache_put ibuf vs ds display_buffer heap)
          (colormanage_settings_to_key { vs with exposure := exposure2 } ds) =
          some { rect := display_buffer, data := colormanage_cachedata_of vs heap } := by
        simp [colormanage_cache_get_ibuf, colormanage_cache_put, IMB_moviecache_put,
          IMB_moviecache_get, colormanage_settings_to_key]
      rw [hfound]
      simp only []
      rw [if_pos]
      exact Or.inr (Or.inl (by simpa [colormanage_cachedata_of] using hne.symm))

/-- Witness for C1: after caching under exposure 0, a lookup with exposure 1
(all else equal) misses. -/
theorem colormanage_cache_get_rejects_stale_snapshot_witness :
    (1 : ℚ) ≠ vs1.exposure ∧
    colormanage_cache_get (colormanage_cache_put ibuf1 vs1 ds1 [9] heap0)
      { vs1 with exposure := 1 } ds1 heap0 = none :=
  ⟨by decide,
    colormanage_cache_get_rejects_stale_snapshot.2 ibuf1 vs1 ds1 heap0 [9] 1 (by decide)⟩

/-- C2: when the per-buffer "ever computed" bit for the requested
(display, view) pair is unset, `colormanage_cache_get` misses without
consulting the block cache (the result is `none` for every possible
moviecache content); and `colormanage_cache_put` always sets that bit and
stores the buffer together with its parameter snapshot under the
(view, display) key. -/
theorem colormanage_cache_fast_reject_and_put_stores :
    (∀ (ibuf : ImBufModel) (vs : ColormanageCacheViewSettings)
        (ds : ColormanageCacheDisplaySettings) (heap : Nat → Int) (flags : List Nat),
      ibuf.display_buffer_flags = some flags →
      (flags.getD (ds.display - 1) 0) &&& (1 <<< (vs.view - 1)) = 0 →
      ∀ mc, colormanage_cache_get { ibuf with moviecache := mc } vs ds heap = none) ∧
    (∀ (ibuf : ImBufModel) (vs : ColormanageCacheViewSettings)
        (ds : ColormanageCacheDisplaySettings) (heap : Nat → Int)
        (display_buffer : List Nat) (flags : List Nat),
      ibuf.display_buffer_flags = some flags →
      ds.display - 1 < flags.length →
      ((((colormanage_cache_put ibuf vs ds display_buffer heap).display_buffer_flags.getD
            []).getD (ds.display - 1) 0) &&& (1 <<< (vs.view - 1)) ≠ 0) ∧
      colormanage_cache_get_ibuf (colormanage_cache_put ibuf vs ds display_buffer heap)
          (colormanage_settings_to_key vs ds) =
        some { rect := display_buffer, data := colormanage_cachedata_of vs heap }) := by
  constructor
  · intro ibuf vs ds heap flags hflags hbit mc
    simp only [colormanage_cache_get]
    rw [if_pos]
    simpa [hflags] using hbit
  · intro ibuf vs ds heap display_buffer flags hflags hlen
    refine ⟨?_, ?_⟩
    · have hget : ((colormanage_cache_put ibuf vs ds display_buffer
          heap).display_buffer_flags.getD []).getD (ds.display - 1) 0 =
          (flags.getD (ds.display - 1) 0) ||| (1 <<< (vs.view - 1)) := by
        simp only [colormanage_cache_put, hflags]
        simpa using getD_set_self flags (ds.display - 1) _ hlen
      rw [hget, and_shl_ne_zero_iff_testBit, Nat.shiftLeft_eq, one_mul,
        Nat.testBit_or, Nat.testBit_two_pow_self, Bool.or_true]
    · simp [colormanage_cache_get_ibuf, colormanage_cache_put, IMB_moviecache_put,
        IMB_moviecache_get, colormanage_settings_to_key]

/-- Witness for C2: on a buffer whose only flag word is 0 the lookup misses
even with a populated moviecache, and a put sets the bit and stores the
snapshot. -/
theorem colormanage_cache_fast_reject_and_put_stores_witness :
    (colormanage_cache_get { ibuf1 with moviecache := some mc1 } vs1 ds1 heap0 = none) ∧
    ((((colormanage_cache_put ibuf1 vs1 ds1 [9] heap0).display_buffer_flags.getD
        []).getD 0 0) &&& 1 ≠ 0) ∧
    colormanage_cache_get_ibuf (colormanage_cache_put ibuf1 vs1 ds1 [9] heap0)
        (colormanage_settings_to_key vs1 ds1) =
      some { rect := [9], data := colormanage_cachedata_of vs1 heap0 } := by
  refine ⟨?_, ?_, ?_⟩
  · exact colormanage_cache_fast_reject_and_put_stores.1 ibuf1 vs1 ds1 heap0 [0]
      rfl (by decide) _
  · exact (colormanage_cache_fast_reject_and_put_stores.2 ibuf1 vs1 ds1 heap0 [9] [0]
      rfl (by decide)).1
  · exact (colormanage_cache_fast_reject_and_put_stores.2 ibuf1 vs1 ds1 heap0 [9] [0]
      rfl (by decide)).2

/-- C3: after a partial display-buffer update on a buffer whose
`display_buffer_flags` bit field exists, every (display, view)
"ever computed" bit other than that of the requested pair is cleared and
only the bit of the requested pair is set (this covers both entry points, which differ
only in the `do_threads` argument). -/
theorem region_update_invalidates_other_display_buffers :
    ∀ (ibuf : ImBufModel) (vs : ColormanageCacheViewSettings)
      (ds : ColormanageCacheDisplaySettings) (tot_display : Nat) (heap : Nat → Int)
      (vals : Nat → Nat) (has_processor : Bool) (xmin ymin xmax ymax : Nat)
      (do_threads : Bool) (flags : List Nat),
      ibuf.display_buffer_flags = some flags →
      flags.length = tot_display →
      1 ≤ vs.view → 1 ≤ ds.display → ds.display ≤ tot_display →
      ∀ d v : Nat, d < tot_display →
        ((((imb_region_display_buffer_update_ex ibuf vs ds tot_display heap vals
              has_processor xmin ymin xmax ymax do_threads).ibuf.display_buffer_flags.getD
              []).getD d 0) &&& (1 <<< v) ≠ 0 ↔
          (d = ds.display - 1 ∧ v = vs.view - 1)) := by
  intro ibuf vs ds tot_display heap vals has_processor xmin ymin xmax ymax do_threads
    flags hflags hlen hview hdisp hdtot d v hd
  have hidx : ds.display - 1 < tot_display := by omega
  have hres : (imb_region_display_buffer_update_ex ibuf vs ds tot_display heap vals
      has_processor xmin ymin xmax ymax do_threads).ibuf.display_buffer_flags =
      some (flag_or (memset_zero tot_display flags) (ds.display - 1)
        (1 <<< (vs.view - 1))) := by
    simp only [imb_region_display_buffer_update_ex, hflags]
    split <;> rfl
  rw [hres, Option.getD_some]
  by_cases hdeq : d = ds.display - 1
  · subst hdeq
    rw [flag_or, getD_set_self _ _ _ (by rw [length_memset_zero, hlen]; exact hidx),
      getD_memset_zero _ _ _ hidx (by rw [hlen]; exact hidx), Nat.zero_or,
      and_shl_ne_zero_iff_testBit, Nat.shiftLeft_eq, one_mul]
    constructor
    · intro h
      by_cases hv : vs.view - 1 = v
      · exact ⟨rfl, hv.symm⟩
      · rw [Nat.testBit_two_pow_of_ne hv] at h
        exact absurd h (by simp)
    · rintro ⟨-, rfl⟩
      exact Nat.testBit_two_pow_self
  · rw [flag_or, getD_set_ne _ _ _ _ (fun h => hdeq h.symm),
      getD_memset_zero _ _ _ hd (by rw [hlen]; exact hd)]
    simp [hdeq]

/-- Witness for C3: on a two-display buffer with stale bits 5 and 3, a
region update for (display 1, view 1) leaves exactly that one bit set. -/
theorem region_update_invalidates_other_display_buffers_witness :
    (((imb_region_display_buffer_update_ex ibuf3 vs1 ds1 2 heap0 vals7 true 0 0 1 1
        false).ibuf.display_buffer_flags.getD []).getD 0 0) &&& (1 <<< 0) ≠ 0 :=
  (region_update_invalidates_other_display_buffers ibuf3 vs1 ds1 2 heap0 vals7 true
    0 0 1 1 false [5, 3] rfl rfl (by decide) (by decide) (by decide) 0 0
    (by decide)).mpr ⟨rfl, rfl⟩

/-- Counterexample to C4: on a buffer whose (display 1, view 2) bit is set
but whose requested (display 1, view 1) buffer was never computed, the
region update is not a state no-op: it performs no recomputation, yet it
rewrites `display_buffer_flags` (from [2] to [1]), contradicting the claim
that the state of the image buffer is left unchanged. -/
theorem region_update_miss_rewrites_flags_counterexample :
    (imb_region_display_buffer_update_ex ibuf2 vs1 ds1 1 heap0 vals7 true 0 0 1 1
        false).recomputed = false ∧
    colormanage_cache_get ibuf2 vs1 ds1 heap0 = none ∧
    (imb_region_display_buffer_update_ex ibuf2 vs1 ds1 1 heap0 vals7 true 0 0 1 1
        false).ibuf.display_buffer_flags ≠ ibuf2.display_buffer_flags := by
  decide

/-- C4 (amended): if the target (view, display) display buffer was never
computed (the cache lookup misses, or the buffer is globally marked
invalid), the partial update performs no recomputation and creates no cache
entry (the moviecache is untouched); the `display_buffer_flags` bit field,
however, is still rewritten to "only the requested pair computed". -/
theorem region_update_never_computed_is_noop_except_flags :
    ∀ (ibuf : ImBufModel) (vs : ColormanageCacheViewSettings)
      (ds : ColormanageCacheDisplaySettings) (tot_display : Nat) (heap : Nat → Int)
      (vals : Nat → Nat) (has_processor : Bool) (xmin ymin xmax ymax : Nat)
      (do_threads : Bool),
      (ibuf.display_buffer_invalid = true ∨
        colormanage_cache_get ibuf vs ds heap = none) →
      (imb_region_display_buffer_update_ex ibuf vs ds tot_display heap vals
          has_processor xmin ymin xmax ymax do_threads).recomputed = false ∧
      (imb_region_display_buffer_update_ex ibuf vs ds tot_display heap vals
          has_processor xmin ymin xmax ymax do_threads).ibuf.moviecache =
        ibuf.moviecache := by
  intro ibuf vs ds tot_display heap vals has_processor xmin ymin xmax ymax do_threads h
  rcases hf : ibuf.display_buffer_flags with _ | flags
  · simp [imb_region_display_buffer_update_ex, hf]
  · have hdb : (if ibuf.display_buffer_invalid then none
        else colormanage_cache_get ibuf vs ds heap) = (none : Option (List Nat)) := by
      rcases h with h | h <;> simp [h]
    simp [imb_region_display_buffer_update_ex, hf, hdb]

/-- Witness for the amended C4: a concrete never-computed request leaves the
moviecache untouched and performs no recomputation. -/
theorem region_update_never_computed_is_noop_except_flags_witness :
    (imb_region_display_buffer_update_ex ibuf2 vs1 ds1 1 heap0 vals7 true 0 0 1 1
        false).recomputed = false ∧
    (imb_region_display_buffer_update_ex ibuf2 vs1 ds1 1 heap0 vals7 true 0 0 1 1
        false).ibuf.moviecache = ibuf2.moviecache :=
  region_update_never_computed_is_noop_except_flags ibuf2 vs1 ds1 1 heap0 vals7 true
    0 0 1 1 false (Or.inr (by decide))

/-- C5 (violation witness): with an active transform, dither ≠ 0 and a
3-channel source, `partial_buffer_update_rect` starts its final byte write
at `(ymin * display_stride + xmin) * channels` instead of `* 4`, so it
overwrites bytes of pixels outside the requested rectangle. Concretely, on
a 2-pixel-wide buffer with rect [1, 2) × [0, 1), byte 3 — the last byte of
pixel (0, 0), which lies strictly left of xmin = 1 — changes from 0 to 7. -/
theorem region_buffer_update_rect_writes_outside_rect :
    (0 < 1) ∧
    (region_buffer_update_rect 3 1 true display8 2 vals7 1 0 2 1).getD
        ((0 * 2 + 0) * 4 + 3) 0 = 7 ∧
    display8.getD ((0 * 2 + 0) * 4 + 3) 0 = 0 := by
  decide

/-- C6: if the first loaded configuration yields zero displays or zero
views, `colormanagement_init` frees the loaded catalog and reloads from the
built-in fallback configuration; in every case initialization completes
with a catalog containing at least one display and one view. -/
theorem colormanagement_init_never_zero_displays :
    ∀ config : OCIOConfig,
      (((colormanage_load_config emptyCatalog config).tot_display = 0 ∨
          (colormanage_load_config emptyCatalog config).tot_view = 0) →
        colormanagement_init config =
          colormanage_load_config
            (colormanage_free_config (colormanage_load_config emptyCatalog config))
            OCIO_configCreateFallback) ∧
      0 < (colormanagement_init config).tot_display ∧
      0 < (colormanagement_init config).tot_view := by
  intro config
  refine ⟨?_, ?_, ?_⟩
  · intro h
    simp [colormanagement_init, h]
  · by_cases h : ((colormanage_load_config emptyCatalog config).tot_display = 0 ∨
        (colormanage_load_config emptyCatalog config).tot_view = 0)
    · simp only [colormanagement_init, if_pos h]
      rw [show colormanage_free_config (colormanage_load_config emptyCatalog config) =
        emptyCatalog from rfl]
      decide
    · simp only [colormanagement_init, if_neg h]
      exact Nat.pos_of_ne_zero (not_or.mp h).1
  · by_cases h : ((colormanage_load_config emptyCatalog config).tot_display = 0 ∨
        (colormanage_load_config emptyCatalog config).tot_view = 0)
    · simp only [colormanagement_init, if_pos h]
      rw [show colormanage_free_config (colormanage_load_config emptyCatalog config) =
        emptyCatalog from rfl]
      decide
    · simp only [colormanagement_init, if_neg h]
      exact Nat.pos_of_ne_zero (not_or.mp h).2

/-- Witness for C6: initializing from a configuration with no displays at
all falls back to the built-in configuration and ends with a display. -/
theorem colormanagement_init_never_zero_displays_witness :
    colormanagement_init emptyConfig =
      colormanage_load_config
        (colormanage_free_config (colormanage_load_config emptyCatalog emptyConfig))
        OCIO_configCreateFallback ∧
    0 < (colormanagement_init emptyConfig).tot_display :=
  ⟨(colormanagement_init_never_zero_displays emptyConfig).1 (Or.inl (by decide)),
    (colormanagement_init_never_zero_displays emptyConfig).2.1⟩

/-- C7: `create_display_buffer_processor` passes the transform engine
scale = 2^exposure (exactly 1 when exposure = 0) and
exponent = 1 / max(FLT_EPSILON, gamma) (exactly 1 when gamma = 1). -/
theorem create_display_buffer_processor_scale_exponent :
    ∀ exposure gamma : ℝ,
      create_display_buffer_processor_scale exposure = Real.rpow 2 exposure ∧
      create_display_buffer_processor_scale 0 = 1 ∧
      create_display_buffer_processor_exponent gamma = 1 / max FLT_EPSILON gamma ∧
      create_display_buffer_processor_exponent 1 = 1 := by
  have heps : FLT_EPSILON ≤ 1 := by
    unfold FLT_EPSILON
    norm_num
  intro exposure gamma
  refine ⟨?_, ?_, ?_, ?_⟩
  · unfold create_display_buffer_processor_scale
    split
    · rename_i h
      rw [h]
      exact (Real.rpow_zero 2).symm
    · rfl
  · simp [create_display_buffer_processor_scale]
  · unfold create_display_buffer_processor_exponent
    split
    · rename_i h
      rw [h, max_eq_right heps]
      norm_num
    · rfl
  · simp [create_display_buffer_processor_exponent]

/-- C8: the buffer transform is the identity (byte-identical buffer) when
the source and destination color-space names are equal or the source name
is empty, for the whole-buffer entry point and the single-pixel variant. -/
theorem colormanagement_transform_noop_identity :
    ∀ (α β : Type) (apply_processor : α → α) (apply_processor_v4 : β → β)
      (buffer : α) (pixel : β) (from_colorspace to_colorspace : String),
      (from_colorspace = to_colorspace ∨ from_colorspace = "") →
      IMB_colormanagement_transform apply_processor buffer from_colorspace
          to_colorspace = buffer ∧
      colormanagement_transform_ex apply_processor buffer from_colorspace
          to_colorspace = buffer ∧
      IMB_colormanagement_transform_v4 apply_processor_v4 pixel from_colorspace
          to_colorspace = pixel := by
  intro α β apply_processor apply_processor_v4 buffer pixel f t h
  unfold IMB_colormanagement_transform colormanagement_transform_ex
    IMB_colormanagement_transform_v4
  rcases h with h | h
  · subst h
    simp
  · subst h
    simp

/-- Witness for C8: a concrete same-space transform returns the buffer and
pixel unchanged even though the processor would prepend an element. -/
theorem colormanagement_transform_noop_identity_witness :
    IMB_colormanagement_transform (fun l => 0 :: l) [1, 2] "sRGB" "sRGB" = [1, 2] ∧
    IMB_colormanagement_transform_v4 (fun l => 0 :: l) [5] "sRGB" "sRGB" = [5] :=
  ⟨(colormanagement_transform_noop_identity (List Nat) (List Nat) (fun l => 0 :: l)
      (fun l => 0 :: l) [1, 2] [5] "sRGB" "sRGB" (Or.inl rfl)).1,
    (colormanagement_transform_noop_identity (List Nat) (List Nat) (fun l => 0 :: l)
      (fun l => 0 :: l) [1, 2] [5] "sRGB" "sRGB" (Or.inl rfl)).2.2⟩

/-- Counterexample to C9: for a look name absent from the catalog,
`colormanage_look_get_named` returns NULL and `colormanage_use_look`
dereferences that NULL descriptor unconditionally
(`look_descr->is_noop` with `look_descr == NULL`, the `none` outcome of
the model) — so it is not true that `colormanage_use_look` never
dereferences a null look descriptor for any look-name argument. -/
theorem colormanage_use_look_null_deref_counterexample :
    colormanage_look_get_named looks1 "Foo" = none ∧
    colormanage_use_look looks1 "Foo" (some "Standard") = none :=
  ⟨rfl, rfl⟩

/-- C9 (amended): catalog lookup misses return the NULL / 0 sentinel
(`IMB_colormanagement_display_get_named_index` returns 0,
`colormanage_look_get_named` returns NULL); `colormanage_use_look`,
however, dereferences the look descriptor unconditionally, so it avoids a
NULL dereference only when the look name is present in the catalog. -/
theorem catalog_lookup_miss_sentinels :
    (∀ (displays : List ColorManagedDisplay) (name : String),
      (∀ d ∈ displays, d.name ≠ name) →
      IMB_colormanagement_display_get_named_index displays name = 0) ∧
    (∀ (looks : List ColorManagedLook) (name : String),
      (∀ l ∈ looks, l.name ≠ name) →
      colormanage_look_get_named looks name = none) ∧
    (∀ (looks : List ColorManagedLook) (name : String) (view_name : Option String),
      (colormanage_look_get_named looks name).isSome = true →
      (colormanage_use_look looks name view_name).isSome = true) := by
  refine ⟨?_, ?_, ?_⟩
  · intro displays name h
    unfold IMB_colormanagement_display_get_named_index colormanage_display_get_named
    rw [List.find?_eq_none.mpr (fun d hd => by simpa using h d hd)]
  · intro looks name h
    unfold colormanage_look_get_named
    rw [List.find?_eq_none.mpr (fun l hl => by simpa using h l hl)]
  · intro looks name view_name h
    unfold colormanage_use_look
    rcases hf : colormanage_look_get_named looks name with _ | look_descr
    · rw [hf] at h
      simp at h
    · simp

/-- Witness for the amended C9: on a catalog with only the "None" look, an
unknown display name yields index 0, an unknown look name yields NULL, and
`colormanage_use_look` on the present "None" look dereferences safely. -/
theorem catalog_lookup_miss_sentinels_witness :
    IMB_colormanagement_display_get_named_index [] "sRGB" = 0 ∧
    colormanage_look_get_named looks1 "AgX" = none ∧
    (colormanage_use_look looks1 "None" (some "Standard")).isSome = true :=
  ⟨catalog_lookup_miss_sentinels.1 [] "sRGB" (by simp),
    catalog_lookup_miss_sentinels.2.1 looks1 "AgX" (by decide),
    catalog_lookup_miss_sentinels.2.2 looks1 "None" (some "Standard") (by decide)⟩

/-- C10: for a well-formed region whose sides fit in a 32-bit int,
`IMB_partial_display_buffer_update_threaded` chooses the thread pool
exactly when `(xmax - xmin) * (ymax - ymin) ≥ 64 * 64`; any smaller region
runs single-threaded on the calling thread. -/
theorem threaded_region_update_choice_iff_area :
    ∀ xmin ymin xmax ymax : Int,
      xmin ≤ xmax → ymin ≤ ymax →
      xmax - xmin < 2 ^ 31 → ymax - ymin < 2 ^ 31 →
      (IMB_region_display_buffer_update_threaded_choice xmin ymin xmax ymax = true ↔
        64 * 64 ≤ (xmax - xmin) * (ymax - ymin)) := by
  intro xmin ymin xmax ymax hx hy hbx hby
  unfold IMB_region_display_buffer_update_threaded_choice size_t_of_int
  have hw0 : 0 ≤ xmax - xmin := by omega
  have hh0 : 0 ≤ ymax - ymin := by omega
  simp only []
  rw [Int.emod_eq_of_lt hw0 (by omega), Int.emod_eq_of_lt hh0 (by omega)]
  have h1 : (xmax - xmin).toNat < 2 ^ 31 := by omega
  have h2 : (ymax - ymin).toNat < 2 ^ 31 := by omega
  have hlt : (xmax - xmin).toNat * (ymax - ymin).toNat < 2 ^ 64 := by
    calc (xmax - xmin).toNat * (ymax - ymin).toNat
        < 2 ^ 31 * 2 ^ 31 := mul_lt_mul'' h1 h2 (Nat.zero_le _) (Nat.zero_le _)
      _ ≤ 2 ^ 64 := by norm_num
  rw [Nat.mod_eq_of_lt hlt]
  simp only [decide_eq_true_eq]
  constructor
  · intro hn
    have hc : ((64 * 64 : Nat) : Int) ≤
        ((xmax - xmin).toNat : Int) * ((ymax - ymin).toNat : Int) := by
      exact_mod_cast hn
    rw [Int.toNat_of_nonneg hw0, Int.toNat_of_nonneg hh0] at hc
    exact le_trans (by norm_num) hc
  · intro hi
    have hc : ((64 * 64 : Nat) : Int) ≤
        ((xmax - xmin).toNat : Int) * ((ymax - ymin).toNat : Int) := by
      rw [Int.toNat_of_nonneg hw0, Int.toNat_of_nonneg hh0]
      exact le_trans (by norm_num) hi
    exact_mod_cast hc

/-- Witness for C10: a 64 × 64 region is dispatched to the thread pool. -/
theorem threaded_region_update_choice_iff_area_witness :
    IMB_region_display_buffer_update_threaded_choice 0 0 64 64 = true :=
  (threaded_region_update_choice_iff_area 0 0 64 64 (by decide) (by decide)
    (by decide) (by decide)).mpr (by decide)
